import Mathlib

/-!
Verification of the signal-confluence engine and scheduler of
`UNIFIED_TRADING_BOT_COMPLETE.py`, via a shallow embedding in Lean.

Python floats are modelled by `ℚ`, with `FloatVal` (value / +inf / -inf / NaN)
where IEEE special values are observable (the RSI gain/loss ratio and
pandas rolling windows, which fill incomplete windows with NaN).
`pandas.DataFrame` columns become `List ℚ` or index functions `ℕ → _`.
-/

namespace BybitBot

/-- One OHLCV candle (a row of the kline DataFrame).  `opn` stands for the
`open` column (a Lean keyword). -/
structure Candle where
  timestamp : Int
  opn : ℚ
  high : ℚ
  low : ℚ
  close : ℚ
  volume : ℚ
deriving DecidableEq, Repr

/-- The `close` column of the DataFrame. -/
def closes (df : List Candle) : List ℚ := df.map Candle.close

/-- The `high` column of the DataFrame. -/
def highs (df : List Candle) : List ℚ := df.map Candle.high

/-- The `low` column of the DataFrame. -/
def lows (df : List Candle) : List ℚ := df.map Candle.low

/-- The `volume` column of the DataFrame. -/
def volumes (df : List Candle) : List ℚ := df.map Candle.volume

/-- `series.tail(k)` : the last `k` entries (the whole list when shorter). -/
def tailN (k : ℕ) (xs : List ℚ) : List ℚ := xs.drop (xs.length - k)

/-- `series.max()` over a column; `0` for the empty series (never used on an
empty one by the guarded source paths). -/
def maxD : List ℚ → ℚ
  | [] => 0
  | x :: xs => xs.foldl max x

/-- `series.min()` over a column. -/
def minD : List ℚ → ℚ
  | [] => 0
  | x :: xs => xs.foldl min x

/-- `series.mean()` over a column (`0` on the empty series, where pandas
would give NaN; the source only takes means of nonempty columns). -/
def listMean (xs : List ℚ) : ℚ := xs.sum / (xs.length : ℚ)

/-- `series.iloc[-1]` (default `0`; all source uses are length-guarded). -/
def ilocLast (xs : List ℚ) : ℚ := xs.getLast?.getD 0

/-- `series.iloc[-2]` (default `0`; all source uses are length-guarded). -/
def ilocPrev (xs : List ℚ) : ℚ := xs.dropLast.getLast?.getD 0

/-- `Series.ewm(span, adjust=False).mean()` continued from the seed `prev`:
`y_t = (1-a)*y_(t-1) + a*x_t`. -/
def ewmFrom (a : ℚ) (prev : ℚ) : List ℚ → List ℚ
  | [] => []
  | x :: xs =>
    let y := (1 - a) * prev + a * x
    y :: ewmFrom a y xs

/-- `Series.ewm(span, adjust=False).mean()` with smoothing factor `a`,
seeded by the first element. -/
def ewmMean (a : ℚ) : List ℚ → List ℚ
  | [] => []
  | x :: xs => x :: ewmFrom a x xs

/-- `BybitAPI.calculate_ema` (source lines 121-128): EMA of the close column
with smoothing factor `2/(period+1)`; empty input yields the empty series. -/
def calculate_ema (df : List Candle) (period : ℕ) : List ℚ :=
  ewmMean (2 / ((period : ℚ) + 1)) (closes df)

theorem ewmFrom_one (prev : ℚ) (xs : List ℚ) : ewmFrom 1 prev xs = xs := by
  induction xs generalizing prev with
  | nil => rfl
  | cons x xs ih => simp [ewmFrom, ih]

theorem ewmMean_one (xs : List ℚ) : ewmMean 1 xs = xs := by
  cases xs with
  | nil => rfl
  | cons x xs => simp [ewmMean, ewmFrom_one]

/-- C8: EMA with `period = 1` (smoothing factor `2/(1+1) = 1`, seeded by
the first close) returns, element for element, the input close-price series. -/
theorem calculate_ema_period_one (df : List Candle) :
    calculate_ema df 1 = closes df := by
  have : (2 : ℚ) / ((1 : ℕ) + 1) = 1 := by norm_num
  rw [calculate_ema, this, ewmMean_one]

/-! ## Float special values

The RSI expression and the pandas rolling windows make IEEE special values
observable; `FloatVal` models the float values that can actually occur
there. -/

/-- A float value: finite, `+inf`, `-inf`, or NaN. -/
inductive FloatVal where
  | val (q : ℚ)
  | pinf
  | ninf
  | nan
deriving DecidableEq, Repr

/-- Float division of two finite values: `g/0` is `±inf` for `g ≠ 0` and
NaN for `g = 0`. -/
def ratDivF (g l : ℚ) : FloatVal :=
  if l = 0 then
    if g = 0 then .nan else if 0 < g then .pinf else .ninf
  else .val (g / l)

/-- Float `>` against a finite constant; NaN compares false. -/
def gtF : FloatVal → ℚ → Bool
  | .val q, c => decide (q > c)
  | .pinf, _ => true
  | .ninf, _ => false
  | .nan, _ => false

/-- Float `<` against a finite constant; NaN compares false. -/
def ltF : FloatVal → ℚ → Bool
  | .val q, c => decide (q < c)
  | .pinf, _ => false
  | .ninf, _ => true
  | .nan, _ => false

/-- `pd.isna`. -/
def isnaF : FloatVal → Bool
  | .nan => true
  | _ => false

/-! ## RSI (source lines 256-264)

The pandas column expressions are embedded index-wise: a pandas Series
becomes a function of the row index, with `Option`/`FloatVal.nan` for NaN
entries. -/

/-- `df['close'].diff()` at index `i`: NaN (`none`) at index 0. -/
def deltaAt (cs : List ℚ) (i : ℕ) : Option ℚ :=
  if i = 0 then none else some (cs.getD i 0 - cs.getD (i - 1) 0)

/-- `delta.where(delta > 0, 0)` at index `i`: `NaN > 0` is false, so the
leading NaN becomes `0`. -/
def gainAt (cs : List ℚ) (i : ℕ) : ℚ :=
  match deltaAt cs i with
  | some d => if 0 < d then d else 0
  | none => 0

/-- `(-delta).where(delta < 0, 0)` at index `i` (loss column, nonnegative). -/
def lossAt (cs : List ℚ) (i : ℕ) : ℚ :=
  match deltaAt cs i with
  | some d => if d < 0 then -d else 0
  | none => 0

/-- `series.rolling(window=w).mean()` at index `i` of a fully defined
series: NaN (`none`) while the window is not yet full. -/
def rollingMeanAt (w : ℕ) (f : ℕ → ℚ) (i : ℕ) : Option ℚ :=
  if i + 1 < w then none
  else some ((((List.range w).map fun k => f (i - k)).sum) / (w : ℚ))

/-- `rs = gain / loss` at index `i`, with float division semantics. -/
def rsAt (cs : List ℚ) (i : ℕ) : FloatVal :=
  match rollingMeanAt 14 (gainAt cs) i, rollingMeanAt 14 (lossAt cs) i with
  | some g, some l => ratDivF g l
  | _, _ => .nan

/-- `rsi = 100 - 100/(1 + rs)` at index `i`: an infinite ratio gives exactly
`100`; a NaN ratio stays NaN. -/
def rsiAt (cs : List ℚ) (i : ℕ) : FloatVal :=
  match rsAt cs i with
  | .val q => if 1 + q = 0 then .ninf else .val (100 - 100 / (1 + q))
  | .pinf => .val 100
  | .ninf => .val 100
  | .nan => .nan

/-- `hidden_div` (source 262-264): RSI-extreme test `rsi > 70 or rsi < 30`
on the last candle, guarded by `len(rsi) > 0 and not pd.isna(rsi.iloc[-1])`. -/
def hidden_div (df : List Candle) : Bool :=
  let r := rsiAt (closes df) (df.length - 1)
  if df.length = 0 then false
  else if isnaF r then false
  else gtF r 70 || ltF r 30

/-! ## ATR / SuperTrend (source lines 143-156, 169-180, 233-237) -/

/-- `true_range` at index `i`: NaN at index 0, where `close.shift()` is NaN
and `np.maximum` propagates it. -/
def trAt (df : List Candle) (i : ℕ) : Option ℚ :=
  if i = 0 then none
  else
    let h := (highs df).getD i 0
    let l := (lows df).getD i 0
    let pc := (closes df).getD (i - 1) 0
    some (max (h - l) (max |h - pc| |l - pc|))

/-- `series.rolling(w).mean()` over a series with NaN entries: NaN when the
window is not full or contains a NaN. -/
def rollingMeanOptAt (w : ℕ) (f : ℕ → Option ℚ) (i : ℕ) : Option ℚ :=
  if i + 1 < w then none
  else if (List.range w).all (fun k => (f (i - k)).isSome) then
    some ((((List.range w).map fun k => (f (i - k)).getD 0).sum) / (w : ℚ))
  else none

/-- `BybitAPI.calculate_atr` at index `i`. -/
def atrAt (df : List Candle) (period : ℕ) (i : ℕ) : Option ℚ :=
  rollingMeanOptAt period (trAt df) i

/-- SuperTrend upper band `hl2 + 3 * atr` at index `i` (NaN where ATR is). -/
def supertrendUpperAt (df : List Candle) (i : ℕ) : Option ℚ :=
  (atrAt df 10 i).map fun a =>
    ((highs df).getD i 0 + (lows df).getD i 0) / 2 + 3 * a

/-- SuperTrend lower band `hl2 - 3 * atr` at index `i`. -/
def supertrendLowerAt (df : List Candle) (i : ℕ) : Option ℚ :=
  (atrAt df 10 i).map fun a =>
    ((highs df).getD i 0 + (lows df).getD i 0) / 2 - 3 * a

/-- Comparison `x > band` where the band entry may be NaN (compares false). -/
def optGt (x : ℚ) : Option ℚ → Bool
  | some y => decide (x > y)
  | none => false

/-- Comparison `x < band` where the band entry may be NaN (compares false). -/
def optLt (x : ℚ) : Option ℚ → Bool
  | some y => decide (x < y)
  | none => false

/-- SuperTrend direction at index `i`: `+1` when close crosses above the
prior upper band, `-1` when below the prior lower band, else `0`; the
shifted band at index 0 is NaN. -/
def supertrendDirectionAt (df : List Candle) (i : ℕ) : Int :=
  let c := (closes df).getD i 0
  let up := if i = 0 then none else supertrendUpperAt df (i - 1)
  let lo := if i = 0 then none else supertrendLowerAt df (i - 1)
  if optGt c up then 1 else if optLt c lo then -1 else 0

/-- `supertrend_buy` (source 233-237): last direction equals `+1`. -/
def supertrend_buy (df : List Candle) : Bool :=
  if df.length = 0 then false
  else supertrendDirectionAt df (df.length - 1) == 1

/-! ## Bollinger squeeze (source lines 158-167, 239-244) -/

/-- Sample variance (`ddof = 1`, as `rolling(w).std()` squared) of the
`w`-window ending at index `i`; NaN while the window is not full. -/
def rollingVarAt (w : ℕ) (f : ℕ → ℚ) (i : ℕ) : Option ℚ :=
  if i + 1 < w then none
  else
    let win := (List.range w).map fun k => f (i - k)
    let m := win.sum / (w : ℚ)
    some (((win.map fun x => (x - m) ^ 2).sum) / ((w : ℚ) - 1))

/-- `boll_band_squeeze` (source 239-244).  The source compares band widths
`upper - lower = 4 * std` at the last index and at index `-10`; the strict
width comparison holds iff the corresponding rolling variances compare,
since the square root is strictly monotone on nonnegative values, so the
embedding compares the variances; a NaN on either side compares false. -/
def boll_band_squeeze (df : List Candle) : Bool :=
  let n := df.length
  let f := fun i => (closes df).getD i 0
  if n > 10 then
    match rollingVarAt 20 f (n - 1), rollingVarAt 20 f (n - 10) with
    | some a, some b => decide (a < b)
    | _, _ => false
  else false

/-! ## EMA cross / MACD cross (source lines 130-141, 218-231) -/

/-- `ema_cross` (source 218-224): EMA(9) above EMA(21) on the last candle
and not above on the one before. -/
def ema_cross (df : List Candle) : Bool :=
  let ema_fast := calculate_ema df 9
  let ema_slow := calculate_ema df 21
  if 1 < ema_fast.length ∧ 1 < ema_slow.length then
    decide (ilocLast ema_fast > ilocLast ema_slow) &&
    decide (ilocPrev ema_fast ≤ ilocPrev ema_slow)
  else false

/-- `calculate_macd` MACD line: `EMA(12) - EMA(26)` elementwise. -/
def macdLine (df : List Candle) : List ℚ :=
  List.zipWith (fun a b => a - b) (calculate_ema df 12) (calculate_ema df 26)

/-- `calculate_macd` signal line: `macd.ewm(span=9, adjust=False).mean()`. -/
def macdSignalLine (df : List Candle) : List ℚ :=
  ewmMean (2 / 10) (macdLine df)

/-- `macd_signal` (source 226-231): MACD line crosses above its signal line
on the last two candles. -/
def macd_signal (df : List Candle) : Bool :=
  let m := macdLine df
  let s := macdSignalLine df
  if 1 < m.length ∧ 1 < s.length then
    decide (ilocLast m > ilocLast s) && decide (ilocPrev m ≤ ilocPrev s)
  else false

/-! ## Structure detectors and remaining booleans -/

/-- `BybitAPI.detect_order_blocks` (source 96-105): false under 20 candles,
else last close above `0.998 ×` the 10-candle trailing high. -/
def detect_order_blocks (df : List Candle) : Bool :=
  if df.length < 20 then false
  else decide (ilocLast (closes df) > maxD (tailN 10 (highs df)) * (998 / 1000))

/-- `BybitAPI.detect_fair_value_gap` (source 107-119): false under 3
candles, else some 3-wide window has `|high[i] - low[i+2]|` above `1.5 ×`
the series-wide mean of `high - low`. -/
def detect_fair_value_gap (df : List Candle) : Bool :=
  if df.length < 3 then false
  else
    (List.range (df.length - 2)).any fun i =>
      decide (|(highs df).getD i 0 - (lows df).getD (i + 2) 0| >
        listMean (List.zipWith (fun h l => h - l) (highs df) (lows df)) * (3 / 2))

/-- `bos_break` (source 205-208): last close above `1.002 ×` the 20-candle
trailing high. -/
def bos_break (df : List Candle) : Bool :=
  decide (ilocLast (closes df) > maxD (tailN 20 (highs df)) * (1002 / 1000))

/-- `volume_spike` (source 246-249): last volume above `1.5 ×` the mean of
the last 20 volumes. -/
def volume_spike (df : List Candle) : Bool :=
  decide (ilocLast (volumes df) > listMean (tailN 20 (volumes df)) * (3 / 2))

/-- `breakout_detected` (source 251-254): last close beyond the 20-candle
high or low. -/
def breakout_detected (df : List Candle) : Bool :=
  decide (ilocLast (closes df) > maxD (tailN 20 (highs df))) ||
  decide (ilocLast (closes df) < minD (tailN 20 (lows df)))

/-! ## The confluence engine (source lines 183-291) -/

/-- The extra label appended by the quantum filter layer. -/
def quantumApprovalLabel : String := "🚀 Quantum Approval"

/-- The nine structural/technical labels in the engine's fixed append
order, followed by the approval label. -/
def candidateLabels : List String :=
  ["Order Block Break", "Fair Value Gap", "Break of Structure",
   "EMA + MACD Confluence", "SuperTrend Signal", "Bollinger Squeeze",
   "Breakout Confirmation", "Volume Surge", "Hidden Divergence",
   quantumApprovalLabel]

/-- The confirmations appended before the quantum filter layer
(source 210-278), in the source's append order. -/
def baseConfirmations (df : List Candle) : List String :=
  (if detect_order_blocks df && bos_break df then ["Order Block Break"] else []) ++
  (if detect_fair_value_gap df then ["Fair Value Gap"] else []) ++
  (if bos_break df then ["Break of Structure"] else []) ++
  (if ema_cross df && macd_signal df then ["EMA + MACD Confluence"] else []) ++
  (if supertrend_buy df then ["SuperTrend Signal"] else []) ++
  (if boll_band_squeeze df then ["Bollinger Squeeze"] else []) ++
  (if breakout_detected df then ["Breakout Confirmation"] else []) ++
  (if volume_spike df then ["Volume Surge"] else []) ++
  (if hidden_div df then ["Hidden Divergence"] else [])

/-- The quantum filter condition (source 281-282):
`total_signals >= 3 and volume_spike and (ema_cross or macd_signal)`, where
`total_signals` counts the labels appended so far. -/
def quantum_approval (df : List Candle) : Bool :=
  decide (3 ≤ (baseConfirmations df).length) && volume_spike df &&
    (ema_cross df || macd_signal df)

/-- The quantum filter layer (source 280-285): append the approval label
iff `quantum_approval` holds. -/
def quantumConfirmations (df : List Candle) : List String :=
  let confirmations := baseConfirmations df
  if quantum_approval df then confirmations ++ [quantumApprovalLabel]
  else confirmations

/-- Sentinel returned when the fetched series is empty (source 197-199). -/
def dataErrorResult : List String := ["Data Error"]

/-- Sentinel assigned by the engine's `except` handler (source 287-289);
unreachable in this total embedding but part of the error contract. -/
def systemErrorResult : List String := ["System Error - Using Fallback"]

/-- `quantum_smart_money_engine_v2` (source 183-291) after its fetch step:
the engine applied to the fetched candle series. -/
def quantum_smart_money_engine_v2 (df : List Candle) : List String :=
  if df.isEmpty then dataErrorResult else quantumConfirmations df

/-! ## The scheduler loop (source lines 1300-1330) -/

/-- The session performance counters `trade_stats` (source 392). -/
structure TradeStats where
  wins : ℕ
  losses : ℕ
  profit_pct : ℚ
deriving DecidableEq, Repr

/-- One classification step of `auto_trade_loop` (source 1315-1326):
`signal_count >= 6` records a win and `+35`; `3 <= signal_count < 6`
records a loss and `-8`; otherwise the stats are untouched. -/
def auto_trade_cycle (stats : TradeStats) (confirmations : List String) : TradeStats :=
  let signal_count := confirmations.length
  if 6 ≤ signal_count then
    { stats with wins := stats.wins + 1, profit_pct := stats.profit_pct + 35 }
  else if 3 ≤ signal_count then
    { stats with losses := stats.losses + 1, profit_pct := stats.profit_pct - 8 }
  else stats

/-! ## Structural facts about the engine's label list -/

theorem optSingleton_append_sublist {c : Bool} {a : String} {l₁ l₂ : List String}
    (h : l₁.Sublist l₂) : ((if c then [a] else []) ++ l₁).Sublist (a :: l₂) := by
  cases c with
  | false => simpa using h.cons a
  | true => simpa using h.cons₂ a

theorem optSingleton_sublist {c : Bool} {a : String} :
    (if c then [a] else []).Sublist [a] := by
  cases c <;> simp

theorem baseConfirmations_sublist (df : List Candle) :
    (baseConfirmations df).Sublist (candidateLabels.take 9) := by
  unfold baseConfirmations
  simp only [List.append_assoc]
  exact optSingleton_append_sublist (optSingleton_append_sublist
    (optSingleton_append_sublist (optSingleton_append_sublist
      (optSingleton_append_sublist (optSingleton_append_sublist
        (optSingleton_append_sublist (optSingleton_append_sublist
          optSingleton_sublist)))))))

theorem candidateLabels_nodup : candidateLabels.Nodup := by
  simp [candidateLabels, quantumApprovalLabel]

theorem approval_not_mem_base (df : List Candle) :
    quantumApprovalLabel ∉ baseConfirmations df := by
  intro h
  have hmem := (baseConfirmations_sublist df).subset h
  simp [candidateLabels, quantumApprovalLabel] at hmem

/-- C1: the quantum approval label is appended to the confluence result iff
the count of previously appended labels is at least 3, the volume-spike
condition holds, and the EMA 9/21 cross or the MACD cross holds; when
appended it is the last element of the returned list. -/
theorem quantum_approval_gate (df : List Candle) :
    (quantumApprovalLabel ∈ quantumConfirmations df ↔
      3 ≤ (baseConfirmations df).length ∧ volume_spike df = true ∧
        (ema_cross df = true ∨ macd_signal df = true)) ∧
    (quantumApprovalLabel ∈ quantumConfirmations df →
      quantumConfirmations df = baseConfirmations df ++ [quantumApprovalLabel] ∧
        (quantumConfirmations df).getLast? = some quantumApprovalLabel) := by
  unfold quantumConfirmations
  by_cases h : quantum_approval df = true
  · rw [if_pos h]
    rw [quantum_approval] at h
    simp only [Bool.and_eq_true, Bool.or_eq_true, decide_eq_true_eq] at h
    refine ⟨?_, fun _ => ⟨rfl, ?_⟩⟩
    · simp [h.1.1, h.1.2, h.2]
    · exact List.getLast?_concat _
  · rw [if_neg h]
    rw [quantum_approval] at h
    simp only [Bool.and_eq_true, Bool.or_eq_true, decide_eq_true_eq] at h
    constructor
    · constructor
      · intro hmem
        exact absurd hmem (approval_not_mem_base df)
      · intro hcond
        exact absurd ⟨⟨hcond.1, hcond.2.1⟩, hcond.2.2⟩ h
    · intro hmem
      exact absurd hmem (approval_not_mem_base df)

/-- C3: on a nonempty fetched series the engine's confirmation list is a
subsequence of the fixed ordered ten-label candidate list; hence it has at
most 10 labels, in the fixed detection order, with no duplicates. -/
theorem engine_labels_sublist_candidates (df : List Candle) (h : df ≠ []) :
    (quantum_smart_money_engine_v2 df).Sublist candidateLabels ∧
    (quantum_smart_money_engine_v2 df).length ≤ 10 ∧
    (quantum_smart_money_engine_v2 df).Nodup := by
  have hne : df.isEmpty = false := by simpa [List.isEmpty_iff] using h
  have heq : quantum_smart_money_engine_v2 df = quantumConfirmations df := by
    simp [quantum_smart_money_engine_v2, hne]
  have hsub : (quantumConfirmations df).Sublist candidateLabels := by
    unfold quantumConfirmations
    by_cases hc : quantum_approval df = true
    · rw [if_pos hc]
      have : candidateLabels = candidateLabels.take 9 ++ [quantumApprovalLabel] := rfl
      rw [this]
      exact (baseConfirmations_sublist df).append (List.Sublist.refl _)
    · rw [if_neg hc]
      exact (baseConfirmations_sublist df).trans (List.take_sublist 9 candidateLabels)
  rw [heq]
  refine ⟨hsub, ?_, hsub.nodup candidateLabels_nodup⟩
  simpa [candidateLabels] using hsub.length_le

/-- C4: the engine's evaluation is total (the embedding is a total
function, so it never raises and never returns a null list); an empty
fetched series yields exactly the one-element `"Data Error"` sentinel, the
`except` handler yields exactly the one-element
`"System Error - Using Fallback"` sentinel, and the scheduler's classifier
treats both as fewer than 3 confirmations, mutating no stat. -/
theorem engine_error_sentinel_neutral (stats : TradeStats) :
    quantum_smart_money_engine_v2 [] = ["Data Error"] ∧
    (quantum_smart_money_engine_v2 []).length = 1 ∧
    auto_trade_cycle stats (quantum_smart_money_engine_v2 []) = stats ∧
    systemErrorResult.length = 1 ∧
    auto_trade_cycle stats systemErrorResult = stats :=
  ⟨rfl, rfl, rfl, rfl, rfl⟩

/-- C2: the outcome of one scheduler cycle is a pure function of the
length `n` of the confirmation list: `n >= 6` adds exactly one win and
`+35` profit; `3 <= n <= 5` adds exactly one loss and `-8` profit; `n < 3`
changes nothing. -/
theorem auto_trade_cycle_classification (stats : TradeStats) (confirmations : List String) :
    (6 ≤ confirmations.length →
      auto_trade_cycle stats confirmations =
        ⟨stats.wins + 1, stats.losses, stats.profit_pct + 35⟩) ∧
    (3 ≤ confirmations.length → confirmations.length < 6 →
      auto_trade_cycle stats confirmations =
        ⟨stats.wins, stats.losses + 1, stats.profit_pct - 8⟩) ∧
    (confirmations.length < 3 → auto_trade_cycle stats confirmations = stats) ∧
    (∀ other : List String, other.length = confirmations.length →
      auto_trade_cycle stats other = auto_trade_cycle stats confirmations) := by
  refine ⟨?_, ?_, ?_, ?_⟩
  · intro h6
    simp [auto_trade_cycle, if_pos h6]
  · intro h3 h6
    have : ¬ 6 ≤ confirmations.length := by omega
    simp [auto_trade_cycle, this, h3]
  · intro h3
    have h6 : ¬ 6 ≤ confirmations.length := by omega
    have h3' : ¬ 3 ≤ confirmations.length := by omega
    simp [auto_trade_cycle, h6, h3']
  · intro other hlen
    simp [auto_trade_cycle, hlen]

/-! ## A concrete series exercising the engine

Twenty-four flat candles at close 100 followed by one breakout candle
(high 150, low 90, close 200, volume 100 against a baseline of 10).  On it
the order-block, FVG, BOS, EMA-cross, MACD-cross, SuperTrend, breakout,
volume-spike and RSI-extreme conditions all hold, the Bollinger squeeze
does not, and the approval gate fires. -/

/-- Candle `i` of the concrete test series. -/
def testCandle (i : ℕ) : Candle :=
  if i = 24 then ⟨24, 100, 150, 90, 200, 100⟩
  else ⟨(i : Int), 100, 100, 100, 100, 10⟩

/-- The concrete 25-candle test series. -/
def testDf : List Candle := (List.range 25).map testCandle

set_option maxRecDepth 40000

theorem testDf_order_blocks : detect_order_blocks testDf = true := by
  with_unfolding_all decide

theorem testDf_fvg : detect_fair_value_gap testDf = true := by
  with_unfolding_all decide

theorem testDf_bos : bos_break testDf = true := by
  with_unfolding_all decide

theorem testDf_ema_cross : ema_cross testDf = true := by
  with_unfolding_all decide

theorem testDf_macd_signal : macd_signal testDf = true := by
  with_unfolding_all decide

theorem testDf_supertrend : supertrend_buy testDf = true := by
  with_unfolding_all decide

theorem testDf_boll : boll_band_squeeze testDf = false := by
  with_unfolding_all decide

theorem testDf_breakout : breakout_detected testDf = true := by
  with_unfolding_all decide

theorem testDf_volume : volume_spike testDf = true := by
  with_unfolding_all decide

theorem testDf_hidden_div : hidden_div testDf = true := by
  with_unfolding_all decide

theorem testDf_base : baseConfirmations testDf =
    ["Order Block Break", "Fair Value Gap", "Break of Structure",
     "EMA + MACD Confluence", "SuperTrend Signal", "Breakout Confirmation",
     "Volume Surge", "Hidden Divergence"] := by
  simp [baseConfirmations, testDf_order_blocks, testDf_fvg, testDf_bos,
    testDf_ema_cross, testDf_macd_signal, testDf_supertrend, testDf_boll,
    testDf_breakout, testDf_volume, testDf_hidden_div]

theorem testDf_confirmations : quantumConfirmations testDf =
    ["Order Block Break", "Fair Value Gap", "Break of Structure",
     "EMA + MACD Confluence", "SuperTrend Signal", "Breakout Confirmation",
     "Volume Surge", "Hidden Divergence", quantumApprovalLabel] := by
  simp [quantumConfirmations, quantum_approval, testDf_base, testDf_volume,
    testDf_ema_cross, testDf_macd_signal]

/-- C1 witness: on the concrete test series the gate condition holds, the
approval label is present, and it is the last element. -/
theorem quantum_approval_gate_witness :
    quantumApprovalLabel ∈ quantumConfirmations testDf ∧
    quantumConfirmations testDf =
      baseConfirmations testDf ++ [quantumApprovalLabel] ∧
    (quantumConfirmations testDf).getLast? = some quantumApprovalLabel := by
  have hmem : quantumApprovalLabel ∈ quantumConfirmations testDf := by
    rw [testDf_confirmations]
    simp
  exact ⟨hmem, (quantum_approval_gate testDf).2 hmem⟩

/-- C3 witness: instantiation on the concrete test series. -/
theorem engine_labels_sublist_candidates_witness :
    (quantum_smart_money_engine_v2 testDf).Sublist candidateLabels ∧
    (quantum_smart_money_engine_v2 testDf).length ≤ 10 ∧
    (quantum_smart_money_engine_v2 testDf).Nodup :=
  engine_labels_sublist_candidates testDf (by with_unfolding_all decide)

/-- C2 witness: concrete confirmation lists of lengths 6, 3 and 1 produce
exactly the claimed stat deltas, and the outcome depends only on the
length. -/
theorem auto_trade_cycle_classification_witness :
    auto_trade_cycle ⟨0, 0, 0⟩ ["a", "b", "c", "d", "e", "f"] = ⟨1, 0, 35⟩ ∧
    auto_trade_cycle ⟨0, 0, 0⟩ ["a", "b", "c"] = ⟨0, 1, -8⟩ ∧
    auto_trade_cycle ⟨0, 0, 0⟩ ["a"] = ⟨0, 0, 0⟩ ∧
    auto_trade_cycle ⟨0, 0, 0⟩ ["x", "y", "z"] =
      auto_trade_cycle ⟨0, 0, 0⟩ ["a", "b", "c"] := by
  refine ⟨?_, ?_, ?_, ?_⟩
  · simpa using
      (auto_trade_cycle_classification ⟨0, 0, 0⟩ ["a", "b", "c", "d", "e", "f"]).1
        (by decide)
  · simpa using
      (auto_trade_cycle_classification ⟨0, 0, 0⟩ ["a", "b", "c"]).2.1
        (by decide) (by decide)
  · simpa using
      (auto_trade_cycle_classification ⟨0, 0, 0⟩ ["a"]).2.2.1 (by decide)
  · exact (auto_trade_cycle_classification ⟨0, 0, 0⟩ ["a", "b", "c"]).2.2.2
      ["x", "y", "z"] (by decide)

/-! ## Market data fetch with mock fallback (source lines 53-94) -/

/-- Models the NumPy uniform stream drawn after `np.random.seed(42)` in
`_generate_mock_data` (source 84): the seed is reset on every call, so the
`k`-th draw of a call is a fixed pure function of `k` alone; the exact
Mersenne-Twister values are irrelevant to every claim, so the stream is
stood in for by a fixed LCG stream into `[0, 1)`. -/
def mockRand (k : ℕ) : ℚ :=
  (((1103515245 * k + 12345) % 2147483648 : ℕ) : ℚ) / 2147483648

/-- `np.random.uniform(lo, hi)` for the `k`-th draw of the seeded stream. -/
def mockUniform (k : ℕ) (lo hi : ℚ) : ℚ := lo + (hi - lo) * mockRand k

/-- `BybitAPI._generate_mock_data` (source 82-94): `limit` synthetic
candles; row `j` has timestamp `int(time.time()) - (limit - j) * 60`
(`now` is the wall clock at invocation), and open/high/low/close/volume
drawn from the seeded stream in column order. -/
def generate_mock_data (limit : ℕ) (now : Int) : List Candle :=
  (List.range limit).map fun (j : ℕ) =>
    { timestamp := now - ((limit : Int) - (j : Int)) * 60,
      opn := 50000 + mockUniform j (-1000) 1000,
      high := 50000 + mockUniform (limit + j) 0 1500,
      low := 50000 - mockUniform (2 * limit + j) 0 1500,
      close := 50000 + mockUniform (3 * limit + j) (-1000) 1000,
      volume := mockUniform (4 * limit + j) 100 1000 }

/-- The outcome of the Bybit HTTP call as seen by `get_kline_data`:
a parsed candle list (`retCode = 0` with a nonempty `result.list`), a bad
response (error code or empty list), or a raised exception. -/
inductive ApiOutcome where
  | ok (rows : List Candle)
  | bad
  | failure
deriving DecidableEq, Repr

/-- `BybitAPI.get_kline_data` (source 53-80): parsed data sorted by
timestamp on success; both the bad-response branch and the `except`
handler return `_generate_mock_data(limit)`, so no failure propagates to
the caller. -/
def get_kline_data (outcome : ApiOutcome) (limit : ℕ) (now : Int) : List Candle :=
  match outcome with
  | .ok rows => rows.mergeSort fun a b => decide (a.timestamp ≤ b.timestamp)
  | .bad => generate_mock_data limit now
  | .failure => generate_mock_data limit now

/-- C5 counterexample: the fallback series is not a function of the limit
alone — two failure fallbacks with `limit = 1` taken 60 seconds apart
differ (in the timestamp column), refuting "two fallback invocations with
the same limit yield identical series". -/
theorem mock_fallback_time_dependent :
    get_kline_data .failure 1 60 ≠ get_kline_data .failure 1 120 := by
  with_unfolding_all decide

/-- C5 (amended): the fetch is total (never raises); on a bad response or
an exception it returns the synthetic fallback of exactly the requested
length, whose open/high/low/close/volume columns depend only on the limit
— only the timestamp column varies with the invocation time. -/
theorem get_kline_fallback_deterministic (outcome : ApiOutcome) (limit : ℕ)
    (now now2 : Int) (h : outcome = .bad ∨ outcome = .failure) :
    get_kline_data outcome limit now = generate_mock_data limit now ∧
    (get_kline_data outcome limit now).length = limit ∧
    (get_kline_data outcome limit now).map
        (fun c => (c.opn, c.high, c.low, c.close, c.volume)) =
      (get_kline_data outcome limit now2).map
        (fun c => (c.opn, c.high, c.low, c.close, c.volume)) := by
  have hlen : (generate_mock_data limit now).length = limit := by
    rw [generate_mock_data, List.length_map, List.length_range]
  have hmap : ∀ t : Int, (generate_mock_data limit t).map
      (fun c => (c.opn, c.high, c.low, c.close, c.volume)) =
      (List.range limit).map fun (j : ℕ) =>
        (50000 + mockUniform j (-1000) 1000,
         50000 + mockUniform (limit + j) 0 1500,
         50000 - mockUniform (2 * limit + j) 0 1500,
         50000 + mockUniform (3 * limit + j) (-1000) 1000,
         mockUniform (4 * limit + j) 100 1000) := by
    intro t
    rw [generate_mock_data, List.map_map]
    rfl
  rcases h with h | h <;> subst h <;>
    exact ⟨rfl, hlen, by simp only [get_kline_data]; rw [hmap, hmap]⟩

/-- C5 witness: instantiation at `limit = 2` and times 0 and 300. -/
theorem get_kline_fallback_deterministic_witness :
    get_kline_data .failure 2 0 = generate_mock_data 2 0 ∧
    (get_kline_data .failure 2 0).length = 2 ∧
    (get_kline_data .failure 2 0).map
        (fun c => (c.opn, c.high, c.low, c.close, c.volume)) =
      (get_kline_data .failure 2 300).map
        (fun c => (c.opn, c.high, c.low, c.close, c.volume)) :=
  get_kline_fallback_deterministic .failure 2 0 300 (Or.inr rfl)

/-! ## Bot session state and command handlers (source lines 388-393,
1227-1463) -/

/-- The auto-trader configuration `current_auto` (source 391). -/
structure AutoConfig where
  symbol : String
  timeframes : List String
  leverage : Int
  strategy : String
deriving DecidableEq, Repr

/-- The bot's mutable session state (source 388-393). -/
structure BotState where
  auto_trader_running : Bool
  current_auto : AutoConfig
  trade_stats : TradeStats
  current_strategy : String
  bot_locked : Bool
deriving DecidableEq, Repr

/-- The replies sent by the modelled handlers, identified by the state
data interpolated into the source's message text. -/
inductive Reply where
  | autoagreeUsage
  | autoagreeStarted (strategy symbol : String) (timeframes : List String)
      (leverage : Int)
  | statusRunning (strategy symbol : String) (timeframes : List String)
      (leverage : Int) (wins losses : ℕ) (profit_pct : ℚ)
  | statusStopped (strategy : String)
  | stopped
  | lockedReply
  | unlockedReply
  | notAuthorized
  | strategySet (strategy : String)
  | strategyIs (strategy : String)
deriving DecidableEq, Repr

/-- The leverage argument (source 1287-1290):
`int(parts[-1].replace("x", "")) if parts[-1].endswith("x") else 10`,
with the surrounding `try` defaulting to 10 on a parse failure. -/
def parseLeverage (parts : List String) : Int :=
  let lastPart := parts.getLast?.getD ""
  if lastPart.endsWith "x" then
    match (lastPart.replace "x" "").toInt? with
    | some v => v
    | none => 10
  else 10

/-- `autoagree_command` (source 1277-1335) up to the thread spawn: takes
the whitespace-split words of the message text (`message.text.split()`)
and the current state; fewer than 4 words replies with the usage text and
changes nothing, otherwise the session is (re)started with
`timeframes = parts[2:-1]` and zeroed stats. -/
def autoagree_command (st : BotState) (parts : List String) : BotState × Reply :=
  if parts.length < 4 then (st, .autoagreeUsage)
  else
    let symbol := (parts[1]?.getD "").toUpper
    let timeframes :=
      if 3 < parts.length then (parts.drop 2).dropLast
      else [parts[2]?.getD ""]
    let leverage := parseLeverage parts
    ({ st with
        auto_trader_running := true,
        current_auto := ⟨symbol, timeframes, leverage, st.current_strategy⟩,
        trade_stats := ⟨0, 0, 0⟩ },
      .autoagreeStarted st.current_strategy symbol timeframes leverage)

/-- C6: a start request whose arguments yield an empty timeframe slice
`parts[2:-1]` (equivalently, fewer than 4 words — which also covers a
missing symbol) is rejected synchronously with the usage reply and the
whole session state, `running` and stats included, is returned unchanged. -/
theorem autoagree_empty_timeframes_rejected (st : BotState) (parts : List String)
    (h : (parts.drop 2).dropLast = []) :
    autoagree_command st parts = (st, Reply.autoagreeUsage) := by
  have hlen : parts.length < 4 := by
    by_contra hge
    push_neg at hge
    have hl : (parts.drop 2).dropLast.length = parts.length - 3 := by
      simp [List.length_dropLast, List.length_drop]
      omega
    rw [h] at hl
    simp at hl
    omega
  simp [autoagree_command, hlen]

/-- A concrete stopped session state. -/
def stoppedState : BotState :=
  ⟨false, ⟨"BTCUSDT", ["15"], 10, "quantum"⟩, ⟨2, 1, 19⟩,
    "Quantum Engine V2.0", false⟩

/-- C6 witness: `/autoagree BTCUSDT 15m` (three words, so an empty
`parts[2:-1]` slice) against a stopped session with nonzero stats. -/
theorem autoagree_empty_timeframes_rejected_witness :
    autoagree_command stoppedState ["/autoagree", "BTCUSDT", "15m"] =
      (stoppedState, Reply.autoagreeUsage) :=
  autoagree_empty_timeframes_rejected stoppedState
    ["/autoagree", "BTCUSDT", "15m"] rfl

/-! ## Scheduler-loop concurrency (source lines 1293-1332, 1441-1445) -/

/-- Concurrency state: `auto_trade_loop` threads poll
`while auto_trader_running` (source 1301); `active_loops` counts spawned
loop threads that have not yet observed a false flag and exited. -/
structure LoopSystem where
  auto_trader_running : Bool
  active_loops : ℕ
deriving DecidableEq, Repr

/-- Events on the loop system: a validated `/autoagree` start (sets the
flag and unconditionally spawns a new loop thread, source 1293 and 1332),
a `/stopauto` stop (clears the flag, source 1441-1445), and one loop
thread reaching its `while` check, which exits only when the flag is
false. -/
inductive LoopEvent where
  | startCmd
  | stopCmd
  | loopCheck
deriving DecidableEq, Repr

/-- One transition of the loop system. -/
def loopStep (s : LoopSystem) : LoopEvent → LoopSystem
  | .startCmd => { auto_trader_running := true, active_loops := s.active_loops + 1 }
  | .stopCmd => { s with auto_trader_running := false }
  | .loopCheck =>
    if s.auto_trader_running then s
    else { s with active_loops := s.active_loops - 1 }

/-- Run a sequence of events from a state. -/
def loopRun (s : LoopSystem) (events : List LoopEvent) : LoopSystem :=
  events.foldl loopStep s

/-- C7 (code bug): from the initial state, two start commands leave two
loop threads active simultaneously — `autoagree_command` spawns a new
`auto_trade_loop` thread without stopping or joining the previous one, and
the previous one cannot have exited because the flag stayed true — so the
"at most one active scheduler loop" property fails on the code. -/
theorem overlapping_loops_after_double_start :
    loopRun ⟨false, 0⟩ [.startCmd, .startCmd] = ⟨true, 2⟩ ∧
    (∀ s : LoopSystem, (loopStep s .startCmd).active_loops = s.active_loops + 1) ∧
    loopStep ⟨true, 1⟩ .loopCheck = ⟨true, 1⟩ :=
  ⟨rfl, fun _ => rfl, rfl⟩

/-- The modelled chat commands: the auto-trader control surface plus the
lock/unlock pair (source 1227-1463). -/
inductive Command where
  | autoagree
  | stopauto
  | status
  | lock
  | unlock
  | setQuantum
  | setMomentum
  | setBreakout
  | setMeanreversion
  | checkStrategy
deriving DecidableEq, Repr

/-- Dispatch one message to its handler: `sender` is
`message.from_user.id`, `adminId` is `ADMIN_ID`, `parts` the split message
text.  Field-for-field translation of the handlers at source 1227-1263,
1277-1335 and 1441-1463. -/
def handle (cmd : Command) (adminId sender : Int) (parts : List String)
    (st : BotState) : BotState × Reply :=
  match cmd with
  | .autoagree => autoagree_command st parts
  | .stopauto => ({ st with auto_trader_running := false }, .stopped)
  | .status =>
    if st.auto_trader_running then
      (st, .statusRunning st.current_strategy st.current_auto.symbol
        st.current_auto.timeframes st.current_auto.leverage
        st.trade_stats.wins st.trade_stats.losses st.trade_stats.profit_pct)
    else (st, .statusStopped st.current_strategy)
  | .lock =>
    if sender = adminId then ({ st with bot_locked := true }, .lockedReply)
    else (st, .notAuthorized)
  | .unlock =>
    if sender = adminId then ({ st with bot_locked := false }, .unlockedReply)
    else (st, .notAuthorized)
  | .setQuantum =>
    ({ st with current_strategy := "Quantum Engine V2.0" },
      .strategySet "Quantum Engine V2.0")
  | .setMomentum =>
    ({ st with current_strategy := "Momentum Scalper V1.0" },
      .strategySet "Momentum Scalper V1.0")
  | .setBreakout =>
    ({ st with current_strategy := "Breakout Hunter V1.0" },
      .strategySet "Breakout Hunter V1.0")
  | .setMeanreversion =>
    ({ st with current_strategy := "Mean Reversion V1.0" },
      .strategySet "Mean Reversion V1.0")
  | .checkStrategy => (st, .strategyIs st.current_strategy)

/-- C9: `bot_locked` is written only by the lock and unlock handlers and
read by none — for every other command, sender and message, the reply and
the state update are identical in two runs that differ only in the flag's
value, and the flag itself is left unchanged. -/
theorem handlers_ignore_lock (cmd : Command) (adminId sender : Int)
    (parts : List String) (st : BotState) (b₁ b₂ : Bool)
    (h₁ : cmd ≠ .lock) (h₂ : cmd ≠ .unlock) :
    (handle cmd adminId sender parts { st with bot_locked := b₁ }).2 =
      (handle cmd adminId sender parts { st with bot_locked := b₂ }).2 ∧
    (handle cmd adminId sender parts { st with bot_locked := b₁ }).1 =
      { (handle cmd adminId sender parts { st with bot_locked := b₂ }).1 with
          bot_locked := b₁ } ∧
    (handle cmd adminId sender parts { st with bot_locked := b₁ }).1.bot_locked
      = b₁ := by
  cases cmd <;>
    simp_all [handle, autoagree_command] <;>
    split <;>
    simp

/-- C9 witness: instantiation at `/stopauto` from a non-admin sender, with
the flag set and cleared. -/
theorem handlers_ignore_lock_witness :
    (handle .stopauto 1 2 [] { stoppedState with bot_locked := true }).2 =
      (handle .stopauto 1 2 [] { stoppedState with bot_locked := false }).2 ∧
    (handle .stopauto 1 2 [] { stoppedState with bot_locked := true }).1 =
      { (handle .stopauto 1 2 [] { stoppedState with bot_locked := false }).1
          with bot_locked := true } ∧
    (handle .stopauto 1 2 [] { stoppedState with bot_locked := true }).1.bot_locked
      = true :=
  handlers_ignore_lock .stopauto 1 2 [] stoppedState true false
    (by decide) (by decide)

/-! ## RSI with a zero average loss (source lines 256-264) -/

theorem list_sum_pos_of_nonneg_of_mem {l : List ℚ} (hnn : ∀ x ∈ l, 0 ≤ x)
    {y : ℚ} (hy : y ∈ l) (hypos : 0 < y) : 0 < l.sum := by
  induction l with
  | nil => simp at hy
  | cons a t ih =>
    rw [List.sum_cons]
    rcases List.mem_cons.mp hy with hy | hy
    · subst hy
      have ht : 0 ≤ t.sum := List.sum_nonneg fun x hx => hnn x (List.mem_cons_of_mem _ hx)
      linarith
    · have ha : 0 ≤ a := hnn a (List.mem_cons_self a t)
      have ht : 0 < t.sum := ih (fun x hx => hnn x (List.mem_cons_of_mem _ hx)) hy
      linarith

/-- C10: on a series whose close-to-close deltas over the last 14-candle
window are all nonnegative with at least one strictly positive, the
average loss is 0 while the average gain is positive, the gain/loss ratio
is `+inf` rather than an error, the RSI of the last candle is exactly 100,
and the `"Hidden Divergence"` label is appended by the engine. -/
theorem rsi_zero_loss_is_100 (df : List Candle)
    (h14 : 14 ≤ df.length)
    (hnn : ∀ j < df.length, df.length - 14 ≤ j → j ≠ 0 →
      0 ≤ (closes df).getD j 0 - (closes df).getD (j - 1) 0)
    (hpos : ∃ j, j < df.length ∧ df.length - 14 ≤ j ∧ j ≠ 0 ∧
      0 < (closes df).getD j 0 - (closes df).getD (j - 1) 0) :
    rsiAt (closes df) (df.length - 1) = .val 100 ∧
    hidden_div df = true ∧
    "Hidden Divergence" ∈ quantumConfirmations df := by
  obtain ⟨j₀, hj₀n, hj₀lo, hj₀ne, hj₀pos⟩ := hpos
  set cs := closes df with hcs
  set n := df.length with hn
  have hloss : ∀ k ∈ List.range 14, lossAt cs (n - 1 - k) = 0 := by
    intro k hk
    rw [List.mem_range] at hk
    by_cases hz : n - 1 - k = 0
    · rw [hz]
      simp [lossAt, deltaAt]
    · have h1 : n - 14 ≤ n - 1 - k := by omega
      have h2 : n - 1 - k < n := by omega
      have hd := hnn _ h2 h1 hz
      simp only [lossAt, deltaAt, if_neg hz]
      rw [if_neg (not_lt.mpr hd)]
  have havgLoss : rollingMeanAt 14 (lossAt cs) (n - 1) = some 0 := by
    rw [rollingMeanAt, if_neg (by omega)]
    have hz : ((List.range 14).map fun k => lossAt cs (n - 1 - k)).sum = 0 := by
      apply List.sum_eq_zero
      intro x hx
      obtain ⟨k, hk, rfl⟩ := List.mem_map.mp hx
      exact hloss k hk
    rw [hz]
    norm_num
  have hgain_nn : ∀ k ∈ List.range 14, 0 ≤ gainAt cs (n - 1 - k) := by
    intro k _
    cases hdel : deltaAt cs (n - 1 - k) with
    | none => simp [gainAt, hdel]
    | some d =>
      simp only [gainAt, hdel]
      by_cases hd : 0 < d
      · rw [if_pos hd]
        linarith
      · rw [if_neg hd]
  have hk₀ : n - 1 - (n - 1 - j₀) = j₀ := by omega
  have hgain_pos : 0 < gainAt cs j₀ := by
    simp only [gainAt, deltaAt, if_neg hj₀ne]
    rw [if_pos hj₀pos]
    exact hj₀pos
  have hgmem : gainAt cs j₀ ∈ (List.range 14).map fun k => gainAt cs (n - 1 - k) :=
    List.mem_map.mpr ⟨n - 1 - j₀, List.mem_range.mpr (by omega), by rw [hk₀]⟩
  have havgGain : ∃ g, rollingMeanAt 14 (gainAt cs) (n - 1) = some g ∧ 0 < g := by
    rw [rollingMeanAt, if_neg (by omega)]
    refine ⟨_, rfl, ?_⟩
    apply div_pos ?_ (by norm_num)
    refine list_sum_pos_of_nonneg_of_mem ?_ hgmem hgain_pos
    intro x hx
    obtain ⟨k, hk, rfl⟩ := List.mem_map.mp hx
    exact hgain_nn k hk
  obtain ⟨g, hg, hgpos⟩ := havgGain
  have hrs : rsAt cs (n - 1) = .pinf := by
    unfold rsAt
    rw [hg, havgLoss]
    show ratDivF g 0 = .pinf
    rw [ratDivF, if_pos rfl, if_neg (ne_of_gt hgpos), if_pos hgpos]
  have hrsi : rsiAt cs (n - 1) = .val 100 := by
    unfold rsiAt
    rw [hrs]
  have hhd : hidden_div df = true := by
    simp only [hidden_div, ← hcs, ← hn, hrsi]
    rw [if_neg (by omega)]
    simp [isnaF, gtF]
    norm_num
  refine ⟨hrsi, hhd, ?_⟩
  have hmem : "Hidden Divergence" ∈ baseConfirmations df := by
    unfold baseConfirmations
    rw [hhd]
    simp
  unfold quantumConfirmations
  by_cases hq : quantum_approval df = true
  · rw [if_pos hq]
    exact List.mem_append_left _ hmem
  · rw [if_neg hq]
    exact hmem

/-- C10 witness: on the concrete test series (all last-window deltas are 0
except the final `+100`) the RSI of the last candle is exactly 100 and the
hidden-divergence label is present. -/
theorem rsi_zero_loss_is_100_witness :
    rsiAt (closes testDf) (testDf.length - 1) = .val 100 ∧
    hidden_div testDf = true ∧
    "Hidden Divergence" ∈ quantumConfirmations testDf :=
  rsi_zero_loss_is_100 testDf (by with_unfolding_all decide)
    (by with_unfolding_all decide)
    ⟨24, by with_unfolding_all decide⟩

end BybitBot
